import Mathlib

/-
  Verification of a small CRUD HTTP-like server (Rust, src/main.rs).

  The server logic is embedded shallowly: pure string processing is
  translated function-by-function from the source; the external pieces
  (the postgres client and the serde JSON codec) are modelled as oracles
  carried in an environment record, and every database interaction a
  handler performs is recorded in an explicit operation trace, so that
  claims of the form "no store operation is issued" become statements
  about that trace.
-/

namespace CrudServer

/-- Embedding of the Rust struct User: optional integer id plus
name and email strings. -/
structure User where
  id : Option Int
  name : String
  email : String
deriving DecidableEq

/-- Status-line constant OK_RESPONSE from the source. -/
def OK_RESPONSE : String := "HTTP/1.1 200 OK\r\nContent-Type: application/json\r\n\r\n"

/-- Status-line constant NOT_FOUND from the source. -/
def NOT_FOUND : String := "HTTP/1.1 404 NOT FOUND\r\n\r\n"

/-- Status-line constant INTERNAL_ERROR from the source. -/
def INTERNAL_ERROR : String := "HTTP/1.1 500 INTERNAL ERROR\r\n\r\n"

/-- One database interaction a handler can issue: opening a connection
or executing one of the five SQL statements, with the parameters that
the source passes to the statement. -/
inductive DbOp where
  | connect : DbOp
  | insert (name email : String) : DbOp
  | getById (id : Int) : DbOp
  | queryAll : DbOp
  | update (id : Int) (name email : String) : DbOp
  | delete (id : Int) : DbOp
deriving DecidableEq

/-- Oracle for the postgres client: the outcome of connecting and of each
parameterized statement.  Statement outcomes are indexed by the statement
parameters; execute-style statements yield the number of affected rows. -/
structure Db where
  connect : Except Unit Unit
  insert : String → String → Except Unit Nat
  getById : Int → Except Unit (Option User)
  queryAll : Except Unit (List User)
  update : Int → String → String → Except Unit Nat
  delete : Int → Except Unit Nat

/-- Oracle environment for one request: the database outcomes plus the
serde codec (User JSON decoding and encoding). -/
structure Env where
  db : Db
  parseUser : String → Except Unit User
  serializeUser : User → String
  serializeUsers : List User → String

/-- A handler result: the (status line, content) pair the source returns,
paired with the trace of database operations issued on the way. -/
abbrev Resp := (String × String) × List DbOp

/-- Embedding of Rust str starts_with: the pattern is a list prefix
of the request text. -/
def starts_with (r p : String) : Bool := p.data.isPrefixOf r.data

/-- Embedding of Rust split on the one-character pattern "/": chunks
between occurrences of the slash, empty chunks included. -/
def splitSlash : List Char → List (List Char)
  | [] => [[]]
  | c :: rest =>
    if c = '/' then [] :: splitSlash rest
    else
      match splitSlash rest with
      | [] => [[c]]
      | r :: rs => (c :: r) :: rs

/-- Embedding of Rust split_whitespace: the maximal runs of
non-whitespace characters, in order, empty runs never produced. -/
def split_whitespace : List Char → List (List Char)
  | [] => []
  | c :: rest =>
    if c.isWhitespace then split_whitespace rest
    else
      let ts := split_whitespace rest
      match rest with
      | [] => [[c]]
      | d :: _ =>
        if d.isWhitespace then [c] :: ts
        else
          match ts with
          | [] => [[c]]
          | t :: ts2 => (c :: t) :: ts2

/-- The four-character blank-line separator CRLF CRLF. -/
def crlf2 : List Char := ['\r', '\n', '\r', '\n']

/-- Embedding of Rust split on the pattern CRLF CRLF: leftmost,
non-overlapping matches, empty chunks included.  A list shorter than the
pattern is a single chunk; at each position the next four characters are
compared with the pattern, and a match ends the current chunk and is
skipped whole. -/
def splitCrlf2 : List Char → List (List Char)
  | [] => [[]]
  | [c] => [[c]]
  | [c1, c2] => [[c1, c2]]
  | [c1, c2, c3] => [[c1, c2, c3]]
  | c1 :: c2 :: c3 :: c4 :: rest =>
    if [c1, c2, c3, c4] = crlf2 then
      [] :: splitCrlf2 rest
    else
      match splitCrlf2 (c2 :: c3 :: c4 :: rest) with
      | [] => [[c1]]
      | r :: rs => (c1 :: r) :: rs

/-- Embedding of Rust str parse for an unsigned digit run: accumulate
ASCII digits, fail on any non-digit. -/
def digitsToNat : List Char → Nat → Option Nat
  | [], acc => some acc
  | c :: rest, acc =>
    if c.isDigit then digitsToNat rest (acc * 10 + (c.toNat - 48)) else none

/-- Digit-run parse that fails on the empty run. -/
def parseDigits : List Char → Option Nat
  | [] => none
  | cs => digitsToNat cs 0

/-- Embedding of Rust str parse into i32: optional sign, one or more
ASCII digits, and the i32 range check. -/
def parse_i32 (s : String) : Option Int :=
  match s.data with
  | '+' :: rest =>
    match parseDigits rest with
    | some n => if n ≤ 2147483647 then some (Int.ofNat n) else none
    | none => none
  | '-' :: rest =>
    match parseDigits rest with
    | some n => if n ≤ 2147483648 then some (-(Int.ofNat n)) else none
    | none => none
  | l =>
    match parseDigits l with
    | some n => if n ≤ 2147483647 then some (Int.ofNat n) else none
    | none => none

/-- Embedding of the source function get_id: split the raw request on
slashes, take the chunk at index 2 (empty when absent), and take its
first whitespace-separated token (empty when none). -/
def get_id (r : String) : String :=
  ⟨(split_whitespace ((splitSlash r.data).getD 2 [])).headD []⟩

/-- The text part of the source function get_user_request_body: the last
chunk of the raw request split on CRLF CRLF. -/
def request_body_text (r : String) : String :=
  ⟨(splitCrlf2 r.data).getLastD []⟩

/-- Embedding of the source function get_user_request_body: decode the
extracted body text as a User via the serde oracle. -/
def get_user_request_body (r : String) (env : Env) : Except Unit User :=
  env.parseUser (request_body_text r)

/-- Embedding of handle_post_request: decode the body, connect, run the
INSERT with name and email as the only parameters. -/
def handle_post_request (r : String) (env : Env) : Resp :=
  match get_user_request_body r env with
  | Except.ok user =>
    match env.db.connect with
    | Except.ok _ =>
      match env.db.insert user.name user.email with
      | Except.ok _ =>
        ((OK_RESPONSE, "User created"), [DbOp.connect, DbOp.insert user.name user.email])
      | Except.error _ =>
        ((INTERNAL_ERROR, "Internal error"), [DbOp.connect, DbOp.insert user.name user.email])
    | Except.error _ => ((INTERNAL_ERROR, "Internal error"), [DbOp.connect])
  | Except.error _ => ((INTERNAL_ERROR, "Invalid JSON"), [])

/-- Embedding of handle_get_request: parse the id, connect, run the
single-row SELECT, serialize the row when present. -/
def handle_get_request (r : String) (env : Env) : Resp :=
  match parse_i32 (get_id r) with
  | none => ((NOT_FOUND, "Invalid ID"), [])
  | some id =>
    match env.db.connect with
    | Except.ok _ =>
      match env.db.getById id with
      | Except.ok (some row) =>
        ((OK_RESPONSE, env.serializeUser row), [DbOp.connect, DbOp.getById id])
      | Except.ok none =>
        ((NOT_FOUND, "User not found"), [DbOp.connect, DbOp.getById id])
      | Except.error _ =>
        ((INTERNAL_ERROR, "Internal error"), [DbOp.connect, DbOp.getById id])
    | Except.error _ => ((INTERNAL_ERROR, "Internal error"), [DbOp.connect])

/-- Embedding of handle_get_all_request: connect, run the SELECT of all
rows, defaulting to the empty row list when the query fails, and
serialize the resulting list. -/
def handle_get_all_request (_r : String) (env : Env) : Resp :=
  match env.db.connect with
  | Except.ok _ =>
    let rows := match env.db.queryAll with
      | Except.ok rs => rs
      | Except.error _ => []
    ((OK_RESPONSE, env.serializeUsers rows), [DbOp.connect, DbOp.queryAll])
  | Except.error _ => ((INTERNAL_ERROR, "Internal error"), [DbOp.connect])

/-- Embedding of handle_put_request: parse the id, decode the body,
connect, run the UPDATE, and map the affected-row count. -/
def handle_put_request (r : String) (env : Env) : Resp :=
  match parse_i32 (get_id r) with
  | none => ((NOT_FOUND, "Invalid ID"), [])
  | some id =>
    match get_user_request_body r env with
    | Except.ok user =>
      match env.db.connect with
      | Except.ok _ =>
        match env.db.update id user.name user.email with
        | Except.ok affected =>
          if affected > 0 then
            ((OK_RESPONSE, "User updated"), [DbOp.connect, DbOp.update id user.name user.email])
          else
            ((NOT_FOUND, "User not found"), [DbOp.connect, DbOp.update id user.name user.email])
        | Except.error _ =>
          ((INTERNAL_ERROR, "Internal error"), [DbOp.connect, DbOp.update id user.name user.email])
      | Except.error _ => ((INTERNAL_ERROR, "Internal error"), [DbOp.connect])
    | Except.error _ => ((INTERNAL_ERROR, "Invalid JSON"), [])

/-- Embedding of handle_delete_request: parse the id, connect, run the
DELETE, and map the affected-row count. -/
def handle_delete_request (r : String) (env : Env) : Resp :=
  match parse_i32 (get_id r) with
  | none => ((NOT_FOUND, "Invalid ID"), [])
  | some id =>
    match env.db.connect with
    | Except.ok _ =>
      match env.db.delete id with
      | Except.ok affected =>
        if affected > 0 then
          ((OK_RESPONSE, "User deleted"), [DbOp.connect, DbOp.delete id])
        else
          ((NOT_FOUND, "User not found"), [DbOp.connect, DbOp.delete id])
      | Except.error _ =>
        ((INTERNAL_ERROR, "Internal error"), [DbOp.connect, DbOp.delete id])
    | Except.error _ => ((INTERNAL_ERROR, "Internal error"), [DbOp.connect])

/-- Embedding of the dispatch match inside handle_client: the if-chain
of starts_with tests, in source order, with the 404 fallthrough. -/
def handle_client (r : String) (env : Env) : Resp :=
  if starts_with r "POST /users" then handle_post_request r env
  else if starts_with r "GET /users/" then handle_get_request r env
  else if starts_with r "GET /users" then handle_get_all_request r env
  else if starts_with r "PUT /users/" then handle_put_request r env
  else if starts_with r "DELETE /users/" then handle_delete_request r env
  else ((NOT_FOUND, "404 Not Found"), [])

/-- Dispatch table in the fixed priority order of the spec: each route test
string paired with its handler. -/
def routeTable : List (String × (String → Env → Resp)) :=
  [("POST /users", handle_post_request),
   ("GET /users/", handle_get_request),
   ("GET /users", handle_get_all_request),
   ("PUT /users/", handle_put_request),
   ("DELETE /users/", handle_delete_request)]

/-- Spec-side dispatcher, following the words of the spec: the first entry of
the priority table whose prefix test succeeds handles the request, and a
request matching no entry gets the 404 fallthrough. -/
def routeSpec (r : String) (env : Env) : Resp :=
  match routeTable.find? (fun pr => starts_with r pr.1) with
  | some pr => pr.2 r env
  | none => ((NOT_FOUND, "404 Not Found"), [])

/-- Id extraction as claim C7 words it: the third slash-separated chunk
of the request, truncated at its first whitespace character. -/
def spec_extract_id (r : String) : String :=
  ⟨((splitSlash r.data).getD 2 []).takeWhile (fun c => !c.isWhitespace)⟩

/-- Test fixture: a concrete user value. -/
def u0 : User := ⟨none, "Ann", "a@x.com"⟩

/-- Test fixture: a database oracle where connecting succeeds, lookups
find nothing, updates touch one row and deletes touch none. -/
def dbTest : Db :=
  { connect := Except.ok ()
    insert := fun _ _ => Except.ok 1
    getById := fun _ => Except.ok none
    queryAll := Except.ok []
    update := fun _ _ _ => Except.ok 1
    delete := fun _ => Except.ok 0 }

/-- Test fixture: an environment whose JSON decoding always fails. -/
def envTest : Env :=
  { db := dbTest
    parseUser := fun _ => Except.error ()
    serializeUser := fun _ => ""
    serializeUsers := fun _ => "[]" }

/-- Test fixture: an environment whose JSON decoding always yields u0. -/
def envUpd : Env := { envTest with parseUser := fun _ => Except.ok u0 }

/-- Test fixture: an environment where connecting to the store fails. -/
def envConnFail : Env := { envTest with db := { dbTest with connect := Except.error () } }

/-- Test fixture: like envUpd, but the decoded user carries id 99. -/
def envPost99 : Env :=
  { envUpd with parseUser := fun _ => Except.ok { u0 with id := some 99 } }


/-- The blank-line pattern is a list prefix of a list with at least four
elements exactly when the first four elements are the pattern. -/
theorem crlf2_prefix_iff (c1 c2 c3 c4 : Char) (rest : List Char) :
    crlf2 <+: (c1 :: c2 :: c3 :: c4 :: rest) ↔ [c1, c2, c3, c4] = crlf2 := by
  constructor
  · intro h
    rw [List.prefix_iff_eq_take] at h
    simpa [crlf2] using h.symm
  · intro h
    refine ⟨rest, ?_⟩
    rw [← h]
    rfl

/-- Splitting on the blank-line pattern never yields the empty list. -/
theorem splitCrlf2_ne_nil (s : List Char) : splitCrlf2 s ≠ [] := by
  induction s using splitCrlf2.induct with
  | case1 => simp [splitCrlf2]
  | case2 c => simp [splitCrlf2]
  | case3 c1 c2 => simp [splitCrlf2]
  | case4 c1 c2 c3 => simp [splitCrlf2]
  | case5 c1 c2 c3 c4 rest h ih => simp [splitCrlf2, h]
  | case6 c1 c2 c3 c4 rest h hnil ih => exact absurd hnil ih
  | case7 c1 c2 c3 c4 rest h r rs heq ih => simp [splitCrlf2, h, heq]

/-- A list that does not contain the blank-line pattern splits into the
single chunk that is the list itself. -/
theorem splitCrlf2_of_no_sep (s : List Char) : ¬ crlf2 <:+: s → splitCrlf2 s = [s] := by
  induction s using splitCrlf2.induct with
  | case1 => intro _; rfl
  | case2 c => intro _; rfl
  | case3 c1 c2 => intro _; rfl
  | case4 c1 c2 c3 => intro _; rfl
  | case5 c1 c2 c3 c4 rest h ih =>
    intro hni
    exact absurd ((crlf2_prefix_iff c1 c2 c3 c4 rest).mpr h).isInfix hni
  | case6 c1 c2 c3 c4 rest h hnil ih => exact absurd hnil (splitCrlf2_ne_nil _)
  | case7 c1 c2 c3 c4 rest h r rs heq ih =>
    intro hni
    have hrest : ¬ crlf2 <:+: (c2 :: c3 :: c4 :: rest) := fun hc => hni (List.infix_cons hc)
    have h2 := ih hrest
    rw [heq] at h2
    injection h2 with h2a h2b
    subst h2a h2b
    simp [splitCrlf2, h, heq]

/-- A list that does contain the blank-line pattern splits into at least
two chunks. -/
theorem splitCrlf2_len_of_sep (s : List Char) : crlf2 <:+: s → 2 ≤ (splitCrlf2 s).length := by
  induction s using splitCrlf2.induct with
  | case1 => intro h; have := h.length_le; simp [crlf2] at this
  | case2 c => intro h; have := h.length_le; simp [crlf2] at this
  | case3 c1 c2 => intro h; have := h.length_le; simp [crlf2] at this
  | case4 c1 c2 c3 => intro h; have := h.length_le; simp [crlf2] at this
  | case5 c1 c2 c3 c4 rest h ih =>
    intro _
    have hne := splitCrlf2_ne_nil rest
    cases hsc : splitCrlf2 rest with
    | nil => exact absurd hsc hne
    | cons a as => simp [splitCrlf2, h, hsc]
  | case6 c1 c2 c3 c4 rest h hnil ih => exact absurd hnil (splitCrlf2_ne_nil _)
  | case7 c1 c2 c3 c4 rest h r rs heq ih =>
    intro hin
    have hrest : crlf2 <:+: (c2 :: c3 :: c4 :: rest) := by
      rcases List.infix_cons_iff.mp hin with hp | hi
      · exact absurd ((crlf2_prefix_iff c1 c2 c3 c4 rest).mp hp) h
      · exact hi
    have h2 := ih hrest
    rw [heq] at h2
    simp only [List.length_cons] at h2 ⊢
    simp [splitCrlf2, h, heq]
    omega

/-- The last chunk of the blank-line split is the whole list when the
pattern is absent, and otherwise the pattern-free tail that follows a
final occurrence of the pattern. -/
theorem splitCrlf2_lastD_spec (s : List Char) :
    (¬ crlf2 <:+: s ∧ (splitCrlf2 s).getLastD [] = s) ∨
    (∃ p, s = p ++ crlf2 ++ (splitCrlf2 s).getLastD [] ∧
      ¬ crlf2 <:+: (splitCrlf2 s).getLastD []) := by
  induction s using splitCrlf2.induct with
  | case1 => left; exact ⟨by decide, rfl⟩
  | case2 c =>
    left
    refine ⟨fun h => ?_, rfl⟩
    have := h.length_le; simp [crlf2] at this
  | case3 c1 c2 =>
    left
    refine ⟨fun h => ?_, rfl⟩
    have := h.length_le; simp [crlf2] at this
  | case4 c1 c2 c3 =>
    left
    refine ⟨fun h => ?_, rfl⟩
    have := h.length_le; simp [crlf2] at this
  | case5 c1 c2 c3 c4 rest h ih =>
    right
    have hs : c1 :: c2 :: c3 :: c4 :: rest = crlf2 ++ rest := by
      rw [← h]; rfl
    have hlast : (splitCrlf2 (c1 :: c2 :: c3 :: c4 :: rest)).getLastD []
        = (splitCrlf2 rest).getLastD [] := by
      have hne := splitCrlf2_ne_nil rest
      cases hsc : splitCrlf2 rest with
      | nil => exact absurd hsc hne
      | cons a as => simp [splitCrlf2, h, hsc, List.getLastD_cons]
    rcases ih with ⟨hni, hb⟩ | ⟨p, hp2, hni⟩
    · refine ⟨[], ?_, ?_⟩
      · rw [hlast, hb]; simpa using hs
      · rw [hlast, hb]; exact hni
    · refine ⟨crlf2 ++ p, ?_, ?_⟩
      · rw [hlast]
        calc c1 :: c2 :: c3 :: c4 :: rest = crlf2 ++ rest := hs
          _ = crlf2 ++ (p ++ crlf2 ++ (splitCrlf2 rest).getLastD []) := by
              exact congrArg (fun x => crlf2 ++ x) hp2
          _ = (crlf2 ++ p) ++ crlf2 ++ (splitCrlf2 rest).getLastD [] := by
              simp [List.append_assoc]
      · rw [hlast]; exact hni
  | case6 c1 c2 c3 c4 rest h hnil ih => exact absurd hnil (splitCrlf2_ne_nil _)
  | case7 c1 c2 c3 c4 rest h r rs heq ih =>
    have hval : splitCrlf2 (c1 :: c2 :: c3 :: c4 :: rest) = (c1 :: r) :: rs := by
      simp [splitCrlf2, h, heq]
    cases rs with
    | nil =>
      have hrest : ¬ crlf2 <:+: (c2 :: c3 :: c4 :: rest) := by
        intro hc
        have h2 := splitCrlf2_len_of_sep _ hc
        rw [heq] at h2
        simp at h2
      have hr : r = c2 :: c3 :: c4 :: rest := by
        have h2 := splitCrlf2_of_no_sep _ hrest
        rw [heq] at h2
        injection h2
      left
      constructor
      · intro hc
        rcases List.infix_cons_iff.mp hc with hp | hi
        · exact absurd ((crlf2_prefix_iff c1 c2 c3 c4 rest).mp hp) h
        · exact hrest hi
      · rw [hval, hr]; simp
    | cons r2 rs2 =>
      have hrest : crlf2 <:+: (c2 :: c3 :: c4 :: rest) := by
        by_contra hc
        have h2 := splitCrlf2_of_no_sep _ hc
        rw [heq] at h2
        injection h2 with _ h2b
        exact absurd h2b (by simp)
      rcases ih with ⟨hni, _⟩ | ⟨p, hp2, hni⟩
      · exact absurd hrest hni
      · right
        have hsame : (splitCrlf2 (c1 :: c2 :: c3 :: c4 :: rest)).getLastD []
            = (splitCrlf2 (c2 :: c3 :: c4 :: rest)).getLastD [] := by
          rw [hval, heq]
          simp [List.getLastD_cons]
        refine ⟨c1 :: p, ?_, ?_⟩
        · rw [hsame, List.cons_append]
          exact congrArg (c1 :: ·) hp2
        · rw [hsame]; exact hni

/-- The head of the whitespace split is the first whitespace-delimited
token: leading whitespace skipped, then characters up to the next
whitespace. -/
theorem split_whitespace_headD (s : List Char) :
    (split_whitespace s).headD [] =
      (s.dropWhile Char.isWhitespace).takeWhile (fun c => !c.isWhitespace) := by
  induction s with
  | nil => simp [split_whitespace]
  | cons c rest ih =>
    by_cases hc : c.isWhitespace
    · simpa [split_whitespace, hc, List.dropWhile_cons] using ih
    · cases rest with
      | nil => simp [split_whitespace, hc]
      | cons d rest2 =>
        by_cases hd : d.isWhitespace
        · simp [split_whitespace, hc, hd, List.dropWhile_cons, List.takeWhile_cons]
        · have ihd : (split_whitespace (d :: rest2)).headD []
              = d :: rest2.takeWhile (fun x => !x.isWhitespace) := by
            simpa [List.dropWhile_cons, hd, List.takeWhile_cons] using ih
          cases hts : split_whitespace (d :: rest2) with
          | nil => rw [hts] at ihd; simp at ihd
          | cons t ts2 =>
            rw [hts] at ihd
            simp only [List.headD_cons] at ihd
            rw [split_whitespace.eq_2, if_neg hc]
            simp only [hts]
            simp [hd, hc, List.dropWhile_cons, List.takeWhile_cons, ihd]

/-- C1: the dispatcher is first-match over the fixed priority table, so
it agrees with the spec-side dispatcher everywhere, and a request whose
text starts with GET /users/ is handled by the read-by-id handler and by
no other. -/
theorem claim1_dispatch_order (r : String) (env : Env) :
    handle_client r env = routeSpec r env ∧
    (starts_with r "GET /users/" = true →
      handle_client r env = handle_get_request r env) := by
  constructor
  · unfold handle_client routeSpec routeTable
    cases h1 : starts_with r "POST /users" <;>
      cases h2 : starts_with r "GET /users/" <;>
        cases h3 : starts_with r "GET /users" <;>
          cases h4 : starts_with r "PUT /users/" <;>
            cases h5 : starts_with r "DELETE /users/" <;>
              simp [List.find?, h1, h2, h3, h4, h5]
  · intro h
    have hg : "GET /users/".data <+: r.data := by
      have h2 : ("GET /users/").data.isPrefixOf r.data = true := h
      exact List.isPrefixOf_iff_prefix.mp h2
    have hp : starts_with r "POST /users" = false := by
      cases hb : starts_with r "POST /users" with
      | false => rfl
      | true =>
        have hp2 : "POST /users".data <+: r.data := by
          have h2 : ("POST /users").data.isPrefixOf r.data = true := hb
          exact List.isPrefixOf_iff_prefix.mp h2
        rcases List.prefix_or_prefix_of_prefix hp2 hg with hc | hc
        · exact absurd hc (by decide)
        · exact absurd hc (by decide)
    simp [handle_client, hp, h]

/-- Witness for C1 at a concrete read-by-id request. -/
theorem claim1_dispatch_order_witness :
    starts_with "GET /users/5" "GET /users/" = true ∧
    handle_client "GET /users/5" envTest = handle_get_request "GET /users/5" envTest :=
  ⟨by decide, (claim1_dispatch_order "GET /users/5" envTest).2 (by decide)⟩

/-- C5 counterexample: the request abc contains no CRLF CRLF, yet body
extraction returns the whole request abc, not the empty string the claim
demands. -/
theorem claim5_counterexample :
    ¬ crlf2 <:+: "abc".data ∧
    request_body_text "abc" = "abc" ∧
    request_body_text "abc" ≠ "" :=
  ⟨by decide, by decide, by decide⟩

/-- C5 as amended: body extraction returns the chunk after the last
blank-line split, and on a request with no CRLF CRLF at all it returns
the whole request rather than the empty string: the extracted body never
contains CRLF CRLF and is either the whole request or the tail of a
decomposition prefix-CRLFCRLF-body. -/
theorem claim5_body_extraction (r : String) :
    (¬ crlf2 <:+: r.data → request_body_text r = r) ∧
    (crlf2 <:+: r.data →
      ∃ p, r.data = p ++ crlf2 ++ (request_body_text r).data ∧
        ¬ crlf2 <:+: (request_body_text r).data) := by
  constructor
  · intro h
    have h2 := splitCrlf2_of_no_sep r.data h
    apply String.ext
    simp [request_body_text, h2]
  · intro h
    rcases splitCrlf2_lastD_spec r.data with ⟨hni, _⟩ | ⟨p, hp2, hni⟩
    · exact absurd h hni
    · exact ⟨p, by simpa [request_body_text] using hp2,
        by simpa [request_body_text] using hni⟩

/-- Witness for C5: a separator-free request is returned whole, and a
request with a blank line decomposes around its final separator. -/
theorem claim5_body_extraction_witness :
    request_body_text "abc" = "abc" ∧
    ∃ p, "A\r\n\r\nB".data = p ++ crlf2 ++ (request_body_text "A\r\n\r\nB").data ∧
      ¬ crlf2 <:+: (request_body_text "A\r\n\r\nB").data :=
  ⟨(claim5_body_extraction "abc").1 (by decide),
   (claim5_body_extraction "A\r\n\r\nB").2 (by decide)⟩

/-- C7 counterexample: on the request GET /users/ 1 the third
slash-separated segment is the text space-one, whose first
whitespace-delimited token is 1, while truncation at the first
whitespace character would give the empty string. -/
theorem claim7_counterexample :
    get_id "GET /users/ 1" = "1" ∧
    spec_extract_id "GET /users/ 1" = "" ∧
    get_id "GET /users/ 1" ≠ spec_extract_id "GET /users/ 1" :=
  ⟨by decide, by decide, by decide⟩

/-- C7 as amended: id extraction returns the first whitespace-delimited
token of the third slash-separated segment, that is the segment with
leading whitespace skipped and then truncated at the next whitespace,
and returns the empty string when the request has fewer than three
slash-separated segments. -/
theorem claim7_get_id_token (r : String) :
    ((splitSlash r.data).length < 3 → get_id r = "") ∧
    (get_id r).data =
      (((splitSlash r.data).getD 2 []).dropWhile Char.isWhitespace).takeWhile
        (fun c => !c.isWhitespace) := by
  constructor
  · intro h
    have h2 : (splitSlash r.data).getD 2 [] = [] :=
      List.getD_eq_default _ _ (by omega)
    apply String.ext
    show (split_whitespace ((splitSlash r.data).getD 2 [])).headD [] = "".data
    rw [h2]
    rfl
  · have h2 := split_whitespace_headD ((splitSlash r.data).getD 2 [])
    simpa [get_id] using h2

/-- Witness for C7: the request GET has a single slash-free segment, so
id extraction yields the empty string. -/
theorem claim7_get_id_token_witness :
    (splitSlash "GET".data).length < 3 ∧ get_id "GET" = "" :=
  ⟨by decide, (claim7_get_id_token "GET").1 (by decide)⟩

/-- C2: for update and delete with a valid id (and, for update, a valid
body) and an established connection, the affected-row count decides the
response: zero rows gives not-found with body User not found, a positive
count gives OK with body User updated or User deleted, and a statement
error gives internal-error with body Internal error. -/
theorem claim2_affected_rows (r : String) (env : Env) (id : Int) (u : User)
    (ur dr : Except Unit Nat)
    (hid : parse_i32 (get_id r) = some id)
    (hbody : env.parseUser (request_body_text r) = Except.ok u)
    (hconn : env.db.connect = Except.ok ())
    (hu : env.db.update id u.name u.email = ur)
    (hd : env.db.delete id = dr) :
    handle_put_request r env =
      ((match ur with
        | Except.ok 0 => (NOT_FOUND, "User not found")
        | Except.ok (_ + 1) => (OK_RESPONSE, "User updated")
        | Except.error _ => (INTERNAL_ERROR, "Internal error")),
       [DbOp.connect, DbOp.update id u.name u.email]) ∧
    handle_delete_request r env =
      ((match dr with
        | Except.ok 0 => (NOT_FOUND, "User not found")
        | Except.ok (_ + 1) => (OK_RESPONSE, "User deleted")
        | Except.error _ => (INTERNAL_ERROR, "Internal error")),
       [DbOp.connect, DbOp.delete id]) := by
  constructor
  · cases ur with
    | ok n =>
      cases n with
      | zero => simp [handle_put_request, get_user_request_body, hid, hbody, hconn, hu]
      | succ m => simp [handle_put_request, get_user_request_body, hid, hbody, hconn, hu]
    | error e =>
      simp [handle_put_request, get_user_request_body, hid, hbody, hconn, hu]
  · cases dr with
    | ok n =>
      cases n with
      | zero => simp [handle_delete_request, hid, hconn, hd]
      | succ m => simp [handle_delete_request, hid, hconn, hd]
    | error e =>
      simp [handle_delete_request, hid, hconn, hd]

/-- Witness for C2 at id 7: the fixture updates one row and deletes
none, so the update answers User updated and the delete answers User
not found. -/
theorem claim2_affected_rows_witness :
    handle_put_request "PUT /users/7" envUpd
      = ((OK_RESPONSE, "User updated"), [DbOp.connect, DbOp.update 7 u0.name u0.email]) ∧
    handle_delete_request "PUT /users/7" envUpd
      = ((NOT_FOUND, "User not found"), [DbOp.connect, DbOp.delete 7]) := by
  have h := claim2_affected_rows "PUT /users/7" envUpd 7 u0
    (Except.ok 1) (Except.ok 0) (by decide) rfl rfl rfl rfl
  exact ⟨h.1, h.2⟩

/-- C6 counterexample: when opening the store connection fails, the
list-all handler answers internal-error, not the OK status the claim
promises for every store state. -/
theorem claim6_counterexample :
    handle_get_all_request "GET /users" envConnFail
      = ((INTERNAL_ERROR, "Internal error"), [DbOp.connect]) ∧
    INTERNAL_ERROR ≠ OK_RESPONSE := by
  exact ⟨rfl, by decide⟩

/-- C6 as amended: once the connection is established the list-all
handler always answers OK with a serialized row list, the rows on query
success and the empty list on query failure, so a query error is never
propagated; a connection failure, however, answers internal-error. -/
theorem claim6_list_all (r : String) (env : Env) (c : Except Unit Unit)
    (qres : Except Unit (List User))
    (hconn : env.db.connect = c) (hq : env.db.queryAll = qres) :
    handle_get_all_request r env =
      match c with
      | Except.ok _ =>
        ((OK_RESPONSE,
          env.serializeUsers (match qres with
            | Except.ok rows => rows
            | Except.error _ => [])),
         [DbOp.connect, DbOp.queryAll])
      | Except.error _ => ((INTERNAL_ERROR, "Internal error"), [DbOp.connect]) := by
  cases c with
  | ok v =>
    cases qres with
    | ok rows => simp [handle_get_all_request, hconn, hq]
    | error e => simp [handle_get_all_request, hconn, hq]
  | error e => simp [handle_get_all_request, hconn]

/-- Witness for C6 with an established connection and an empty table:
the response is OK with the serialized empty list. -/
theorem claim6_list_all_witness :
    handle_get_all_request "GET /users" envTest
      = ((OK_RESPONSE, "[]"), [DbOp.connect, DbOp.queryAll]) := by
  have h := claim6_list_all "GET /users" envTest (Except.ok ()) (Except.ok []) rfl rfl
  exact h

/-- C3: a read-by-id, update-by-id or delete-by-id request whose id
segment does not parse as an integer yields the not-found status with
body Invalid ID, and the operation trace is empty: no connection is
opened and no statement is issued. -/
theorem claim3_invalid_id_no_store (r : String) (env : Env)
    (h : parse_i32 (get_id r) = none) :
    handle_get_request r env = ((NOT_FOUND, "Invalid ID"), []) ∧
    handle_put_request r env = ((NOT_FOUND, "Invalid ID"), []) ∧
    handle_delete_request r env = ((NOT_FOUND, "Invalid ID"), []) := by
  refine ⟨?_, ?_, ?_⟩ <;>
    simp [handle_get_request, handle_put_request, handle_delete_request, h]

/-- Witness for C3 at the request GET /users/abc. -/
theorem claim3_invalid_id_no_store_witness :
    parse_i32 (get_id "GET /users/abc") = none ∧
    handle_get_request "GET /users/abc" envTest = ((NOT_FOUND, "Invalid ID"), []) ∧
    handle_put_request "GET /users/abc" envTest = ((NOT_FOUND, "Invalid ID"), []) ∧
    handle_delete_request "GET /users/abc" envTest = ((NOT_FOUND, "Invalid ID"), []) := by
  have h := claim3_invalid_id_no_store "GET /users/abc" envTest (by decide)
  exact ⟨by decide, h.1, h.2.1, h.2.2⟩

/-- C4: a create request whose body fails User JSON decoding yields the
internal-error status with body Invalid JSON, and the operation trace is
empty: no connection is opened and no insert statement is issued. -/
theorem claim4_invalid_json_no_insert (r : String) (env : Env)
    (h : env.parseUser (request_body_text r) = Except.error ()) :
    handle_post_request r env = ((INTERNAL_ERROR, "Invalid JSON"), []) := by
  simp [handle_post_request, get_user_request_body, h]

/-- Witness for C4 at a create request with a non-JSON body. -/
theorem claim4_invalid_json_no_insert_witness :
    handle_post_request "POST /users\r\n\r\nnot json" envTest
      = ((INTERNAL_ERROR, "Invalid JSON"), []) :=
  claim4_invalid_json_no_insert "POST /users\r\n\r\nnot json" envTest rfl

/-- C10: the update handler validates the id before touching the body:
with an unparseable id the response is Invalid ID whatever the body
decoder does, and body decoding is consulted only once the id has
parsed, an invalid body then giving Invalid JSON. -/
theorem claim10_put_id_before_body (r : String) (env : Env) :
    (parse_i32 (get_id r) = none → ∀ p : String → Except Unit User,
      handle_put_request r { env with parseUser := p } = ((NOT_FOUND, "Invalid ID"), [])) ∧
    (∀ id, parse_i32 (get_id r) = some id →
      env.parseUser (request_body_text r) = Except.error () →
      handle_put_request r env = ((INTERNAL_ERROR, "Invalid JSON"), [])) := by
  constructor
  · intro h p
    simp [handle_put_request, h]
  · intro id hid hbody
    simp [handle_put_request, get_user_request_body, hid, hbody]

/-- Witness for C10: an update with a bad id answers Invalid ID even
though the body decoder also fails, and an update with a good id and a
failing body decoder answers Invalid JSON. -/
theorem claim10_put_id_before_body_witness :
    handle_put_request "PUT /users/abc" envTest = ((NOT_FOUND, "Invalid ID"), []) ∧
    handle_put_request "PUT /users/7" envTest = ((INTERNAL_ERROR, "Invalid JSON"), []) := by
  constructor
  · exact (claim10_put_id_before_body "PUT /users/abc" envTest).1 (by decide) envTest.parseUser
  · exact (claim10_put_id_before_body "PUT /users/7" envTest).2 7 (by decide) rfl

/-- C9: when the body decodes to a user, the insert statement carries
only the name and the email, never the id: every trace entry is the
connect or that insert, and replacing the decoded id by any other value
leaves the response and the trace unchanged. -/
theorem claim9_post_ignores_id (r : String) (env : Env) (u : User)
    (hbody : env.parseUser (request_body_text r) = Except.ok u) :
    (∀ op ∈ (handle_post_request r env).2,
      op = DbOp.connect ∨ op = DbOp.insert u.name u.email) ∧
    (∀ (newId : Option Int) (env2 : Env), env2.db = env.db →
      env2.parseUser (request_body_text r) = Except.ok { u with id := newId } →
      handle_post_request r env2 = handle_post_request r env) := by
  constructor
  · intro op hop
    simp only [handle_post_request, get_user_request_body, hbody] at hop
    cases hc : env.db.connect with
    | error e =>
      simp [hc] at hop
      simp [hop]
    | ok v =>
      cases hi : env.db.insert u.name u.email with
      | ok n =>
        simp [hc, hi] at hop
        rcases hop with h1 | h1 <;> simp [h1]
      | error e =>
        simp [hc, hi] at hop
        rcases hop with h1 | h1 <;> simp [h1]
  · intro newId env2 hdb hp2
    simp only [handle_post_request, get_user_request_body, hbody, hp2, hdb]

/-- Witness for C9: the decoded id 99 produces the same response and
trace as an absent id, and the trace mentions only connect and the
name-and-email insert. -/
theorem claim9_post_ignores_id_witness :
    (∀ op ∈ (handle_post_request "POST /users" envUpd).2,
      op = DbOp.connect ∨ op = DbOp.insert u0.name u0.email) ∧
    handle_post_request "POST /users" envPost99 = handle_post_request "POST /users" envUpd := by
  have h := claim9_post_ignores_id "POST /users" envUpd u0 rfl
  exact ⟨h.1, h.2 (some 99) envPost99 rfl rfl⟩

/-- The status line of the create handler is one of the three constants. -/
theorem status_cases_post (r : String) (env : Env) :
    (handle_post_request r env).1.1 = OK_RESPONSE ∨
      (handle_post_request r env).1.1 = NOT_FOUND ∨
      (handle_post_request r env).1.1 = INTERNAL_ERROR := by
  cases hb : get_user_request_body r env with
  | ok user =>
    cases hc : env.db.connect with
    | ok v =>
      cases hi : env.db.insert user.name user.email with
      | ok n => simp [handle_post_request, hb, hc, hi]
      | error e => simp [handle_post_request, hb, hc, hi]
    | error e => simp [handle_post_request, hb, hc]
  | error e => simp [handle_post_request, hb]

/-- The status line of the read-by-id handler is one of the three constants. -/
theorem status_cases_get (r : String) (env : Env) :
    (handle_get_request r env).1.1 = OK_RESPONSE ∨
      (handle_get_request r env).1.1 = NOT_FOUND ∨
      (handle_get_request r env).1.1 = INTERNAL_ERROR := by
  cases hi : parse_i32 (get_id r) with
  | none => simp [handle_get_request, hi]
  | some id =>
    cases hc : env.db.connect with
    | ok v =>
      cases hg : env.db.getById id with
      | ok o => cases o <;> simp [handle_get_request, hi, hc, hg]
      | error e => simp [handle_get_request, hi, hc, hg]
    | error e => simp [handle_get_request, hi, hc]

/-- The status line of the list-all handler is one of the three constants. -/
theorem status_cases_get_all (r : String) (env : Env) :
    (handle_get_all_request r env).1.1 = OK_RESPONSE ∨
      (handle_get_all_request r env).1.1 = NOT_FOUND ∨
      (handle_get_all_request r env).1.1 = INTERNAL_ERROR := by
  cases hc : env.db.connect with
  | ok v => simp [handle_get_all_request, hc]
  | error e => simp [handle_get_all_request, hc]

/-- The status line of the update handler is one of the three constants. -/
theorem status_cases_put (r : String) (env : Env) :
    (handle_put_request r env).1.1 = OK_RESPONSE ∨
      (handle_put_request r env).1.1 = NOT_FOUND ∨
      (handle_put_request r env).1.1 = INTERNAL_ERROR := by
  cases hi : parse_i32 (get_id r) with
  | none => simp [handle_put_request, hi]
  | some id =>
    cases hb : get_user_request_body r env with
    | ok user =>
      cases hc : env.db.connect with
      | ok v =>
        cases hu : env.db.update id user.name user.email with
        | ok affected =>
          by_cases haff : affected > 0 <;> simp [handle_put_request, hi, hb, hc, hu, haff]
        | error e => simp [handle_put_request, hi, hb, hc, hu]
      | error e => simp [handle_put_request, hi, hb, hc]
    | error e => simp [handle_put_request, hi, hb]

/-- The status line of the delete handler is one of the three constants. -/
theorem status_cases_delete (r : String) (env : Env) :
    (handle_delete_request r env).1.1 = OK_RESPONSE ∨
      (handle_delete_request r env).1.1 = NOT_FOUND ∨
      (handle_delete_request r env).1.1 = INTERNAL_ERROR := by
  cases hi : parse_i32 (get_id r) with
  | none => simp [handle_delete_request, hi]
  | some id =>
    cases hc : env.db.connect with
    | ok v =>
      cases hd : env.db.delete id with
      | ok affected =>
        by_cases haff : affected > 0 <;> simp [handle_delete_request, hi, hc, hd, haff]
      | error e => simp [handle_delete_request, hi, hc, hd]
    | error e => simp [handle_delete_request, hi, hc]

/-- Every response of the dispatcher carries one of the three status
constants. -/
theorem handle_client_status_cases (r : String) (env : Env) :
    (handle_client r env).1.1 = OK_RESPONSE ∨ (handle_client r env).1.1 = NOT_FOUND ∨
      (handle_client r env).1.1 = INTERNAL_ERROR := by
  unfold handle_client
  split
  · exact status_cases_post r env
  split
  · exact status_cases_get r env
  split
  · exact status_cases_get_all r env
  split
  · exact status_cases_put r env
  split
  · exact status_cases_delete r env
  simp

/-- C8: the three status-line blocks are exactly the literal constants,
a request matching none of the five route tests gets the not-found
status with body 404 Not Found, and the status-line block of every response
is one of the three constants. -/
theorem claim8_status_lines (r : String) (env : Env)
    (h1 : starts_with r "POST /users" = false)
    (h2 : starts_with r "GET /users/" = false)
    (h3 : starts_with r "GET /users" = false)
    (h4 : starts_with r "PUT /users/" = false)
    (h5 : starts_with r "DELETE /users/" = false) :
    OK_RESPONSE = "HTTP/1.1 200 OK\r\nContent-Type: application/json\r\n\r\n" ∧
    NOT_FOUND = "HTTP/1.1 404 NOT FOUND\r\n\r\n" ∧
    INTERNAL_ERROR = "HTTP/1.1 500 INTERNAL ERROR\r\n\r\n" ∧
    handle_client r env = ((NOT_FOUND, "404 Not Found"), []) ∧
    (∀ (r2 : String) (env2 : Env),
      (handle_client r2 env2).1.1 = OK_RESPONSE ∨ (handle_client r2 env2).1.1 = NOT_FOUND ∨
        (handle_client r2 env2).1.1 = INTERNAL_ERROR) := by
  refine ⟨rfl, rfl, rfl, ?_, ?_⟩
  · simp [handle_client, h1, h2, h3, h4, h5]
  · intro r2 env2
    exact handle_client_status_cases r2 env2

/-- Witness for C8 at a request matching no route. -/
theorem claim8_status_lines_witness :
    handle_client "HELLO" envTest = ((NOT_FOUND, "404 Not Found"), []) := by
  have h := claim8_status_lines "HELLO" envTest
    (by decide) (by decide) (by decide) (by decide) (by decide)
  exact h.2.2.2.1

end CrudServer
